import Mathlib

/-!
# PlanetSystem: the control logic of `planetSystem.cpp`

A shallow embedding of the input callbacks, the starfield set-up loop and the
per-frame orbit computation of `src/PlanetSystem/src/planetSystem.cpp`.

Conventions of the embedding

* C++ `float`/`double` values are elements of an arbitrary linearly ordered
  field `α` (exact arithmetic, no rounding).  Instantiating `α := ℚ`
  gives an executable model; instantiating `α := ℝ` with `Real.cos`/`Real.sin`
  gives the model in which trigonometric facts are stated.
* The scroll callback, whose result depends on how comparisons treat NaN, is
  modelled over `FloatVal α`: the finite values of `α` together with NaN and
  the two infinities, with IEEE 754 comparison and subtraction.
* `cos` and `sin` (from `<cmath>`) are parameters of the frame function.
* Globals and the locals of `main` that live across loop iterations are
  fields of explicit state records.
* `glfwGetTime()` is read several times per frame; every read is a separate
  field of `Clock`.
-/

namespace PlanetSystem

/-! ## Constants -/

/-- Source: `const unsigned int SCR_WIDTH = 1800;` -/
def SCR_WIDTH : Nat := 1800

/-- Source: `const unsigned int SCR_HEIGHT = 1000;` -/
def SCR_HEIGHT : Nat := 1000

/-- Source: `const int numStars = 3500;` -/
def numStars : Nat := 3500

/-- The value of `GLFW_KEY_P` in `GLFW/glfw3.h`. -/
def GLFW_KEY_P : Int := 80

/-- The value of `GLFW_RELEASE` in `GLFW/glfw3.h`. -/
def GLFW_RELEASE : Int := 0

/-- The value of `GLFW_PRESS` in `GLFW/glfw3.h`. -/
def GLFW_PRESS : Int := 1

/-- The value of `GLFW_REPEAT` in `GLFW/glfw3.h`. -/
def GLFW_REPEAT : Int := 2

/-! ## Data -/

/-- A `glm::vec3`. -/
structure Vec3 (α : Type) where
  x : α
  y : α
  z : α
deriving DecidableEq, Repr

/-- Componentwise sum of two `glm::vec3`. -/
def Vec3.add {α : Type} [Add α] (a b : Vec3 α) : Vec3 α :=
  ⟨a.x + b.x, a.y + b.y, a.z + b.z⟩

/-- Squared Euclidean distance between two points. -/
def Vec3.distSq {α : Type} [Add α] [Sub α] [Mul α] (a b : Vec3 α) : α :=
  (a.x - b.x) * (a.x - b.x) + (a.y - b.y) * (a.y - b.y) + (a.z - b.z) * (a.z - b.z)

/-- A C++ `float`: NaN, the two infinities, or a finite value (finite values
are exact elements of `α`). -/
inductive FloatVal (α : Type) where
  | nan : FloatVal α
  | ninf : FloatVal α
  | pinf : FloatVal α
  | fin (x : α) : FloatVal α
deriving DecidableEq, Repr

/-- IEEE 754 `a < b`: false as soon as one operand is NaN. -/
def FloatVal.lt {α : Type} [LinearOrderedField α] : FloatVal α → FloatVal α → Bool
  | .nan, _ => false
  | _, .nan => false
  | .ninf, .ninf => false
  | .ninf, _ => true
  | .pinf, _ => false
  | .fin _, .ninf => false
  | .fin _, .pinf => true
  | .fin x, .fin y => decide (x < y)

/-- IEEE 754 `a > b`, that is `b < a`. -/
def FloatVal.gt {α : Type} [LinearOrderedField α] (a b : FloatVal α) : Bool :=
  FloatVal.lt b a

/-- IEEE 754 `a <= b`: false as soon as one operand is NaN. -/
def FloatVal.le {α : Type} [LinearOrderedField α] : FloatVal α → FloatVal α → Bool
  | .nan, _ => false
  | _, .nan => false
  | .ninf, _ => true
  | .pinf, .pinf => true
  | .pinf, _ => false
  | .fin _, .ninf => false
  | .fin _, .pinf => true
  | .fin x, .fin y => decide (x ≤ y)

/-- IEEE 754 `a - b`: NaN when an operand is NaN or when equal infinities are
subtracted; finite operands are subtracted exactly. -/
def FloatVal.sub {α : Type} [LinearOrderedField α] : FloatVal α → FloatVal α → FloatVal α
  | .nan, _ => .nan
  | _, .nan => .nan
  | .fin x, .fin y => .fin (x - y)
  | .fin _, .pinf => .ninf
  | .fin _, .ninf => .pinf
  | .pinf, .pinf => .nan
  | .pinf, _ => .pinf
  | .ninf, .ninf => .nan
  | .ninf, _ => .ninf

/-- The global `Camera camera`.  The class is declared in `Camera.h`; the only
member this file touches directly is the float `Zoom`, everything else is kept
in `rest`. -/
structure Camera (σ α : Type) where
  rest : σ
  Zoom : FloatVal α

/-! ## Scroll callback -/

/-- Source function `scroll_callback`: first `camera.ProcessMouseScroll(yoffset)`
(a member of the `Camera` class, taken as a parameter), then
`fov = camera.Zoom - yoffset`, `if (fov < 1.0f) fov = 1.0f;`,
`if (fov > 50.0f) fov = 50.0f;` and `camera.Zoom = fov`. -/
def scroll_callback {σ α : Type} [LinearOrderedField α]
    (ProcessMouseScroll : Camera σ α → FloatVal α → Camera σ α)
    (camera : Camera σ α) (yoffset : FloatVal α) : Camera σ α :=
  let camera := ProcessMouseScroll camera yoffset
  let fov := camera.Zoom
  let fov := FloatVal.sub fov yoffset
  let fov := if FloatVal.lt fov (.fin 1) then .fin 1 else fov
  let fov := if FloatVal.gt fov (.fin 50) then .fin 50 else fov
  { camera with Zoom := fov }

/-- The camera after a sequence of scroll events, delivered in order. -/
def scrollAll {σ α : Type} [LinearOrderedField α]
    (ProcessMouseScroll : Camera σ α → FloatVal α → Camera σ α)
    (camera : Camera σ α) (yoffsets : List (FloatVal α)) : Camera σ α :=
  yoffsets.foldl (scroll_callback ProcessMouseScroll) camera

/-- Source: `camera.Zoom = 50.0f;` executed just before the render loop. -/
def startupZoom {σ α : Type} [LinearOrderedField α] (camera : Camera σ α) : Camera σ α :=
  { camera with Zoom := .fin 50 }

/-- The zoom lies in the closed range `[1.0, 50.0]` (with the comparisons of
the float type, so NaN is not in the range). -/
def zoomInRange {α : Type} [LinearOrderedField α] (z : FloatVal α) : Bool :=
  FloatVal.le (.fin 1) z && FloatVal.le z (.fin 50)

/-! ## Key callback -/

/-- Source function `keyCallback`: the new value of the global `paused`. -/
def keyCallback (paused : Bool) (key action : Int) : Bool :=
  if key = GLFW_KEY_P ∧ action = GLFW_PRESS then !paused else paused

/-- The global `bool paused;` has static storage and is zero-initialised. -/
def pausedInit : Bool := false

/-! ## Mouse callback -/

/-- The globals `lastX`, `lastY`, `firstMouse`. -/
structure MouseState (α : Type) where
  lastX : α
  lastY : α
  firstMouse : Bool

/-- Initial values: `lastX = SCR_WIDTH / 2.0f`, `lastY = SCR_HEIGHT / 2.0f`,
`firstMouse = true`. -/
def mouseInit {α : Type} [LinearOrderedField α] : MouseState α :=
  { lastX := (SCR_WIDTH : α) / 2, lastY := (SCR_HEIGHT : α) / 2, firstMouse := true }

/-- Source function `mouse_callback`: returns the new globals together with the pair
`(xoffset, yoffset)` handed to `camera.ProcessMouseMovement`. -/
def mouse_callback {α : Type} [LinearOrderedField α]
    (s : MouseState α) (xpos ypos : α) : MouseState α × (α × α) :=
  let s := if s.firstMouse then { lastX := xpos, lastY := ypos, firstMouse := false } else s
  let xoffset := xpos - s.lastX
  let yoffset := s.lastY - ypos
  ({ s with lastX := xpos, lastY := ypos }, (xoffset, yoffset))

/-- Deliver a sequence of cursor positions in order; returns the final globals
and the list of offsets handed to `camera.ProcessMouseMovement`, in order. -/
def mouseAll {α : Type} [LinearOrderedField α] :
    MouseState α → List (α × α) → MouseState α × List (α × α)
  | s, [] => (s, [])
  | s, p :: ps =>
    let r := mouse_callback s p.1 p.2
    let rest := mouseAll r.1 ps
    (rest.1, r.2 :: rest.2)

/-! ## Starfield set-up -/

/-- State of the star generation loop: the global array
`float vertices[numStars * 6]`, the indices stored to so far (in program
order), and the number of `rand()` calls made so far. -/
structure StarState (α : Type) where
  vertices : List α
  written : List Nat
  calls : Nat

/-- State before the loop: `vertices` has static storage, so it holds
`numStars * 6` zeros; nothing stored yet, `rand()` not yet called. -/
def starInit {α : Type} [LinearOrderedField α] : StarState α :=
  { vertices := List.replicate (numStars * 6) 0, written := [], calls := 0 }

/-- The expression `static_cast<float>(r) / RAND_MAX * 6000.0f - 3500.0f` for
an outcome `r` of `rand()`. -/
def starCoord {α : Type} [LinearOrderedField α] (RAND_MAX : Nat) (r : Nat) : α :=
  (r : α) / (RAND_MAX : α) * 6000 - 3500

/-- One evaluation of `static_cast<float>(rand()) / RAND_MAX * 6000.0f - 3500.0f`.
The outcome of the `k`-th call of `rand()` is `rnd k`. -/
def randCoord {α : Type} [LinearOrderedField α] (RAND_MAX : Nat) (rnd : Nat → Nat)
    (s : StarState α) : α × StarState α :=
  (starCoord RAND_MAX (rnd s.calls), { s with calls := s.calls + 1 })

/-- The assignment `vertices[i] = v`; `none` when `i` is outside the array. -/
def store {α : Type} (s : StarState α) (i : Nat) (v : α) : Option (StarState α) :=
  if i < s.vertices.length then
    some { s with vertices := s.vertices.set i v, written := s.written ++ [i] }
  else none

/-- Body of the loop `for (int i = 0; i < numStars; ++i)`. -/
def starBody {α : Type} [LinearOrderedField α] (RAND_MAX : Nat) (rnd : Nat → Nat)
    (s : StarState α) (i : Nat) : Option (StarState α) :=
  let (x, s) := randCoord RAND_MAX rnd s
  let (y, s) := randCoord RAND_MAX rnd s
  let (z, s) := randCoord RAND_MAX rnd s
  let r : α := 255
  let g : α := 255
  let b : α := 255
  (store s (i * 6) x).bind fun s =>
  (store s (i * 6 + 1) y).bind fun s =>
  (store s (i * 6 + 2) z).bind fun s =>
  (store s (i * 6 + 3) r).bind fun s =>
  (store s (i * 6 + 4) g).bind fun s =>
  store s (i * 6 + 5) b

/-- The loop `for (int i = 0; i < n; ++i)` run from state `s`. -/
def starLoop {α : Type} [LinearOrderedField α] (RAND_MAX : Nat) (rnd : Nat → Nat)
    (n : Nat) (s : StarState α) : Option (StarState α) :=
  (List.range n).foldlM (starBody RAND_MAX rnd) s

/-- The star generation of `main`: the loop with `n = numStars` from the
initial state. -/
def generateStars {α : Type} [LinearOrderedField α] (RAND_MAX : Nat) (rnd : Nat → Nat) :
    Option (StarState α) :=
  starLoop RAND_MAX rnd numStars starInit

/-! ## Render loop -/

/-- Source: `float earthOrbitRadius = 5.0f;` (never reassigned). -/
def earthOrbitRadius {α : Type} [LinearOrderedField α] : α := 5

/-- Source: `float moonOrbitRadius = 1.5f;` (never reassigned). -/
def moonOrbitRadius {α : Type} [LinearOrderedField α] : α := 3 / 2

/-- The values returned by the successive calls of `glfwGetTime()` in one
iteration of the render loop, in program order. -/
structure Clock (α : Type) where
  tFrame : α
  tEarth : α
  tMoon : α
  tEarthRot : α
  tSunRot : α
  tMoonRot : α

/-- A clock whose six readings in the iteration all return `t`. -/
def Clock.at {α : Type} (t : α) : Clock α := ⟨t, t, t, t, t, t⟩

/-- State that lives across iterations of the render loop: the globals
`deltaTime`, `lastFrame`, `paused`, the locals of `main` declared before the
loop, and the GL viewport size. -/
structure LoopState (α : Type) where
  deltaTime : α
  lastFrame : α
  paused : Bool
  earthOrbitSpeed : α
  moonOrbitSpeed : α
  earthLastPosition : Option (Vec3 α)
  earthLastOrbitAngle : Option α
  viewport : Int × Int

/-- State on entry to the loop: `deltaTime = lastFrame = 0`, `paused` false,
`earthOrbitSpeed = 0.1f`, `moonOrbitSpeed = 0.3f`, `earthLastPosition` and
`earthLastOrbitAngle` not yet assigned, viewport equal to the window size. -/
def loopInit {α : Type} [LinearOrderedField α] : LoopState α :=
  { deltaTime := 0, lastFrame := 0, paused := pausedInit,
    earthOrbitSpeed := 1 / 10, moonOrbitSpeed := 3 / 10,
    earthLastPosition := none, earthLastOrbitAngle := none,
    viewport := (SCR_WIDTH, SCR_HEIGHT) }

/-- What one iteration computes: the locals of the loop body at the end of the
iteration and the arguments handed to `glm::perspective` and `renderModel`.
`paused` is the value of the global flag tested by `if (!paused)`.
`earthOrbitAngleInit` is the value assigned by the declaration of
`earthOrbitAngle`; `earthOrbitAngle`, `earthPosX`, `earthPosZ` are the values
after the `+=` update and the recomputation that follows it. -/
structure Frame (α : Type) where
  paused : Bool
  deltaTime : α
  aspect : α
  earthOrbitAngleInit : α
  earthOrbitAngle : α
  earthPosX : α
  earthPosZ : α
  moonOrbitAngle : α
  translationSun : Vec3 α
  translationEarth : Vec3 α
  translationMoon : Vec3 α
  sunRotationAngle : α
  earthRotationAngle : α
  moonRotationAngle : α

/-- One iteration of `while (!glfwWindowShouldClose(window))`, up to and
excluding `glfwPollEvents()`. -/
def frame {α : Type} [LinearOrderedField α] (cos sin : α → α)
    (s : LoopState α) (clk : Clock α) : LoopState α × Frame α :=
  let currentFrame := clk.tFrame
  let deltaTime := currentFrame - s.lastFrame
  let lastFrame := currentFrame
  -- glm::perspective(glm::radians(camera.Zoom), (float)SCR_WIDTH / (float)SCR_HEIGHT, ...)
  let aspect : α := (SCR_WIDTH : α) / (SCR_HEIGHT : α)
  let translationSun : Vec3 α := ⟨0, 0, 0⟩
  -- Earth
  let earthOrbitAngleInit := clk.tEarth * s.earthOrbitSpeed
  let earthPosX := cos earthOrbitAngleInit * earthOrbitRadius
  let earthPosZ := sin earthOrbitAngleInit * earthOrbitRadius
  let translationEarth : Vec3 α := ⟨earthPosX, 0, earthPosZ⟩
  -- Moon
  let moonOrbitAngle := clk.tMoon * s.moonOrbitSpeed
  let moonPosX := cos moonOrbitAngle * moonOrbitRadius + earthPosX
  let moonPosZ := sin moonOrbitAngle * moonOrbitRadius + earthPosZ
  let translationMoon : Vec3 α := ⟨moonPosX, 0, moonPosZ⟩
  -- earthOrbitAngle += earthOrbitSpeed * deltaTime;
  let earthOrbitAngle := earthOrbitAngleInit + s.earthOrbitSpeed * deltaTime
  let earthPosX := cos earthOrbitAngle * earthOrbitRadius
  let earthPosZ := sin earthOrbitAngle * earthOrbitRadius
  let s1 : LoopState α :=
    if !s.paused then
      { s with deltaTime := deltaTime, lastFrame := lastFrame,
               earthOrbitSpeed := 1 / 10, moonOrbitSpeed := 3 / 10 }
    else
      { s with deltaTime := deltaTime, lastFrame := lastFrame,
               earthOrbitSpeed := 0, moonOrbitSpeed := 0,
               earthLastPosition := some ⟨earthPosX, 0, earthPosZ⟩,
               earthLastOrbitAngle := some earthOrbitAngle }
  let earthRotationAngle := clk.tEarthRot * (1 / 2)
  let sunRotationAngle := clk.tSunRot * (1 / 10)
  let moonRotationAngle := clk.tMoonRot * (4 / 5)
  -- moonRotationAngle += earthRotationAngle;
  let moonRotationAngle := moonRotationAngle + earthRotationAngle
  (s1, { paused := s.paused, deltaTime := deltaTime, aspect := aspect,
         earthOrbitAngleInit := earthOrbitAngleInit, earthOrbitAngle := earthOrbitAngle,
         earthPosX := earthPosX, earthPosZ := earthPosZ, moonOrbitAngle := moonOrbitAngle,
         translationSun := translationSun, translationEarth := translationEarth,
         translationMoon := translationMoon, sunRotationAngle := sunRotationAngle,
         earthRotationAngle := earthRotationAngle, moonRotationAngle := moonRotationAngle })

/-- Window events dispatched by `glfwPollEvents()` to the callbacks registered
in `main` that touch the loop state. -/
inductive Event where
  | key (key action : Int)
  | resize (width height : Int)
deriving DecidableEq, Repr

/-- Source function `framebuffer_size_callback`: `glViewport(0, 0, width, height)`. -/
def framebuffer_size_callback (_viewport : Int × Int) (width height : Int) : Int × Int :=
  (width, height)

/-- Dispatch of one event to its callback. -/
def dispatch {α : Type} (s : LoopState α) : Event → LoopState α
  | .key k a => { s with paused := keyCallback s.paused k a }
  | .resize w h => { s with viewport := framebuffer_size_callback s.viewport w h }

/-- Source call `glfwPollEvents()`: the pending events are dispatched in order. -/
def pollEvents {α : Type} (s : LoopState α) (events : List Event) : LoopState α :=
  events.foldl dispatch s

/-- The render loop: one entry of the input list per iteration, giving the
clock readings of the iteration and the events pending at its
`glfwPollEvents()`.  Returns the final state and the frames in order. -/
def mainLoop {α : Type} [LinearOrderedField α] (cos sin : α → α) :
    LoopState α → List (Clock α × List Event) → LoopState α × List (Frame α)
  | s, [] => (s, [])
  | s, (clk, events) :: rest =>
    let r := frame cos sin s clk
    let out := mainLoop cos sin (pollEvents r.1 events) rest
    (out.1, r.2 :: out.2)

/-- The frames of a run of the program from start-up. -/
def frames {α : Type} [LinearOrderedField α] (cos sin : α → α)
    (inputs : List (Clock α × List Event)) : List (Frame α) :=
  (mainLoop cos sin loopInit inputs).2

/-- The `P` key pressed. -/
def pressP : Event := .key GLFW_KEY_P GLFW_PRESS

/-- The frame computed with clock readings `clk` by the iteration that follows
the run `inputs` from start-up. -/
def frameAfter {α : Type} [LinearOrderedField α] (cos sin : α → α)
    (inputs : List (Clock α × List Event)) (clk : Clock α) : Frame α :=
  (frame cos sin (mainLoop cos sin loopInit inputs).1 clk).2

/-! # Theorems -/

/-! ## Scroll: the zoom and NaN -/

/-- The two comparisons of `scroll_callback` applied to the difference `d`. -/
theorem clamp_in_range_iff {α : Type} [LinearOrderedField α] (d : FloatVal α) :
    zoomInRange
        (if FloatVal.gt (if FloatVal.lt d (.fin 1) then .fin 1 else d) (.fin 50)
          then (.fin 50 : FloatVal α) else (if FloatVal.lt d (.fin 1) then .fin 1 else d)) = true
      ↔ d ≠ .nan := by
  cases d with
  | nan => simp [FloatVal.lt, FloatVal.gt, zoomInRange, FloatVal.le]
  | ninf => simp [FloatVal.lt, FloatVal.gt, zoomInRange, FloatVal.le]
  | pinf => simp [FloatVal.lt, FloatVal.gt, zoomInRange, FloatVal.le]
  | fin x =>
    simp only [FloatVal.lt, FloatVal.gt, zoomInRange, FloatVal.le, ne_eq, not_false_eq_true,
      iff_true, reduceCtorEq]
    by_cases h1 : x < 1
    · have h50 : ¬ ((50 : α) < 1) := by norm_num
      simp [h1, FloatVal.lt, FloatVal.le, h50]
    · by_cases h2 : (50 : α) < x
      · simp [h1, h2, FloatVal.lt, FloatVal.le]
      · simp [h1, h2, FloatVal.lt, FloatVal.le, not_lt.mp h1, not_lt.mp h2]

/-- C1 (as stated, refuted): from the start-up zoom `50`, with a
`ProcessMouseScroll` that leaves the camera unchanged, one scroll event whose
`yoffset` is NaN leaves NaN in `camera.Zoom`, which is not in `[1, 50]`. -/
theorem zoom_is_nan_after_nan_scroll :
    (scrollAll (fun c _ => c) (startupZoom (⟨(), .fin 0⟩ : Camera Unit ℚ))
        [FloatVal.nan]).Zoom = FloatVal.nan ∧
    zoomInRange (scrollAll (fun c _ => c) (startupZoom (⟨(), .fin 0⟩ : Camera Unit ℚ))
        [FloatVal.nan]).Zoom = false := by
  constructor <;> rfl

/-- C1 (amended): for every `Camera::ProcessMouseScroll`, every starting camera
and every sequence of scroll events, the zoom after a call of `scroll_callback`
(the call for `yoffset` that follows any earlier events `earlier`) lies in
`[1, 50]` exactly when the difference `camera.Zoom - yoffset` computed in that
call, with `camera.Zoom` as left by `ProcessMouseScroll`, is not NaN; the
start-up value `50` is in the range. -/
theorem zoom_in_range_iff_difference_not_nan {σ α : Type} [LinearOrderedField α]
    (ProcessMouseScroll : Camera σ α → FloatVal α → Camera σ α) (camera : Camera σ α) :
    (∀ (earlier : List (FloatVal α)) (yoffset : FloatVal α),
      zoomInRange (scrollAll ProcessMouseScroll camera (earlier ++ [yoffset])).Zoom = true
        ↔ FloatVal.sub
            (ProcessMouseScroll (scrollAll ProcessMouseScroll camera earlier) yoffset).Zoom
            yoffset ≠ FloatVal.nan) ∧
    zoomInRange (startupZoom camera).Zoom = true := by
  refine ⟨fun earlier yoffset => ?_, ?_⟩
  · simp only [scrollAll, List.foldl_append, List.foldl_cons, List.foldl_nil, scroll_callback]
    exact clamp_in_range_iff _
  · simp [startupZoom, zoomInRange, FloatVal.le]

/-! ## Pause toggle -/

/-- C7: the pause flag starts false; `keyCallback` flips it exactly when the
key is `P` and the action is `PRESS` and leaves it unchanged exactly in all
other cases (in particular on release and repeat of `P`); two presses of `P`
restore the flag. -/
theorem pause_flag_toggles_only_on_P_press :
    pausedInit = false ∧
    (∀ (paused : Bool) (key action : Int),
      keyCallback paused key action = (!paused) ↔ (key = GLFW_KEY_P ∧ action = GLFW_PRESS)) ∧
    (∀ (paused : Bool) (key action : Int),
      keyCallback paused key action = paused ↔ ¬ (key = GLFW_KEY_P ∧ action = GLFW_PRESS)) ∧
    (∀ paused : Bool, keyCallback paused GLFW_KEY_P GLFW_RELEASE = paused ∧
      keyCallback paused GLFW_KEY_P GLFW_REPEAT = paused) ∧
    (∀ paused : Bool,
      keyCallback (keyCallback paused GLFW_KEY_P GLFW_PRESS) GLFW_KEY_P GLFW_PRESS = paused) := by
  refine ⟨rfl, ?_, ?_, ?_, ?_⟩
  · intro paused key action
    unfold keyCallback
    split_ifs with h
    · simp [h]
    · cases paused <;> simp [h]
  · intro paused key action
    unfold keyCallback
    split_ifs with h
    · cases paused <;> simp [h]
    · simp [h]
  · intro paused
    simp [keyCallback, GLFW_KEY_P, GLFW_RELEASE, GLFW_REPEAT, GLFW_PRESS]
  · intro paused
    simp [keyCallback]


/-! ## Mouse offsets -/


theorem mouse_callback_later {α : Type} [LinearOrderedField α]
    (lx ly xpos ypos : α) :
    mouse_callback ⟨lx, ly, false⟩ xpos ypos
      = (⟨xpos, ypos, false⟩, (xpos - lx, ly - ypos)) := by
  simp [mouse_callback]

theorem mouse_callback_first {α : Type} [LinearOrderedField α]
    (lx ly xpos ypos : α) :
    mouse_callback ⟨lx, ly, true⟩ xpos ypos = (⟨xpos, ypos, false⟩, (0, 0)) := by
  simp [mouse_callback]

theorem mouseAll_later {α : Type} [LinearOrderedField α] (ps : List (α × α)) :
    ∀ lx ly : α, mouseAll ⟨lx, ly, false⟩ ps
      = (⟨(ps.getLastD (lx, ly)).1, (ps.getLastD (lx, ly)).2, false⟩,
         List.zipWith (fun prev cur => (cur.1 - prev.1, prev.2 - cur.2)) ((lx, ly) :: ps) ps) := by
  induction ps with
  | nil => intro lx ly; simp [mouseAll]
  | cons p ps ih =>
    intro lx ly
    obtain ⟨px, py⟩ := p
    simp only [mouseAll, mouse_callback_later, ih px py, List.zipWith_cons_cons]
    cases ps <;> simp [List.getLastD]

theorem sum_x_offsets {α : Type} [LinearOrderedField α] (ps : List (α × α)) :
    ∀ p0 : α × α,
      ((List.zipWith (fun prev cur => (cur.1 - prev.1, prev.2 - cur.2)) (p0 :: ps) ps).map
        Prod.fst).sum = (ps.getLastD p0).1 - p0.1 := by
  induction ps with
  | nil => intro p0; simp
  | cons p ps ih =>
    intro p0
    simp only [List.zipWith_cons_cons, List.map_cons, List.sum_cons, ih p]
    cases ps <;> simp [List.getLastD]

theorem sum_y_offsets {α : Type} [LinearOrderedField α] (ps : List (α × α)) :
    ∀ p0 : α × α,
      ((List.zipWith (fun prev cur => (cur.1 - prev.1, prev.2 - cur.2)) (p0 :: ps) ps).map
        Prod.snd).sum = p0.2 - (ps.getLastD p0).2 := by
  induction ps with
  | nil => intro p0; simp
  | cons p ps ih =>
    intro p0
    simp only [List.zipWith_cons_cons, List.map_cons, List.sum_cons, ih p]
    cases ps <;> simp [List.getLastD]

/-- C10: for every sequence of cursor positions `first :: later` delivered to
`mouse_callback` from start-up, the offsets handed to the camera are `(0, 0)`
for the first event followed, for every later event, by
`(xpos - previous xpos, previous ypos - ypos)`; afterwards `lastX`/`lastY` hold
the latest cursor position; the x offsets sum to `last xpos - first xpos` and
the y offsets to `first ypos - last ypos`. -/
theorem mouse_offsets_are_consecutive_differences {α : Type} [LinearOrderedField α]
    (first : α × α) (later : List (α × α)) :
    (mouseAll mouseInit (first :: later)).2
      = (0, 0) :: List.zipWith (fun prev cur => (cur.1 - prev.1, prev.2 - cur.2))
          (first :: later) later ∧
    (mouseAll mouseInit (first :: later)).1.lastX = (later.getLastD first).1 ∧
    (mouseAll mouseInit (first :: later)).1.lastY = (later.getLastD first).2 ∧
    (mouseAll mouseInit (first :: later)).1.firstMouse = false ∧
    (((mouseAll mouseInit (first :: later)).2).map Prod.fst).sum
      = (later.getLastD first).1 - first.1 ∧
    (((mouseAll mouseInit (first :: later)).2).map Prod.snd).sum
      = first.2 - (later.getLastD first).2 := by
  obtain ⟨x0, y0⟩ := first
  have h : mouseAll (mouseInit : MouseState α) ((x0, y0) :: later)
      = (⟨(later.getLastD (x0, y0)).1, (later.getLastD (x0, y0)).2, false⟩,
         (0, 0) :: List.zipWith (fun prev cur => (cur.1 - prev.1, prev.2 - cur.2))
          ((x0, y0) :: later) later) := by
    simp only [mouseAll, mouseInit, mouse_callback_first, mouseAll_later]
  rw [h]
  refine ⟨rfl, rfl, rfl, rfl, ?_, ?_⟩
  · simp only [List.map_cons, List.sum_cons, sum_x_offsets, zero_add]
  · simp only [List.map_cons, List.sum_cons, sum_y_offsets, zero_add]


/-! ## Projection aspect ratio -/

/-- C6 (as stated, refuted): after `framebuffer_size_callback` has set the
viewport to `800 x 800` during the first iteration, the second iteration still
builds the projection with aspect `9/5`, not `800/800`. -/
theorem aspect_differs_from_viewport_after_resize :
    (pollEvents (frame Real.cos Real.sin (loopInit : LoopState ℝ) (Clock.at 1)).1
        [Event.resize 800 800]).viewport = (800, 800) ∧
    (frame Real.cos Real.sin
        (pollEvents (frame Real.cos Real.sin (loopInit : LoopState ℝ) (Clock.at 1)).1
          [Event.resize 800 800]) (Clock.at 2)).2.aspect = 9 / 5 ∧
    (frame Real.cos Real.sin
        (pollEvents (frame Real.cos Real.sin (loopInit : LoopState ℝ) (Clock.at 1)).1
          [Event.resize 800 800]) (Clock.at 2)).2.aspect ≠ ((800 : Int) : ℝ) / ((800 : Int) : ℝ) := by
  refine ⟨?_, ?_, ?_⟩
  · simp [pollEvents, dispatch, framebuffer_size_callback]
  · simp only [frame, SCR_WIDTH, SCR_HEIGHT]; norm_num
  · simp only [frame, SCR_WIDTH, SCR_HEIGHT]; norm_num

/-- C6 (amended): in every frame the aspect ratio used to build the projection
is the constant `SCR_WIDTH / SCR_HEIGHT = 9/5`, also in a frame that follows
`framebuffer_size_callback` setting the viewport to any `(width, height)` with
`height > 0`; it equals `width / height` of that viewport exactly when
`5 * width = 9 * height`. -/
theorem aspect_is_constant {α : Type} [LinearOrderedField α] (cos sin : α → α)
    (s : LoopState α) (clk : Clock α) (width height : Int) (hh : 0 < height) :
    (dispatch s (Event.resize width height)).viewport = (width, height) ∧
    (frame cos sin s clk).2.aspect = 9 / 5 ∧
    (frame cos sin (dispatch s (Event.resize width height)) clk).2.aspect = 9 / 5 ∧
    ((frame cos sin (dispatch s (Event.resize width height)) clk).2.aspect
        = (width : α) / (height : α) ↔ 5 * width = 9 * height) := by
  have hasp : ∀ t : LoopState α, (frame cos sin t clk).2.aspect = 9 / 5 := by
    intro t
    simp only [frame, SCR_WIDTH, SCR_HEIGHT]
    norm_num
  have hh' : (0 : α) < (height : α) := by exact_mod_cast hh
  refine ⟨rfl, hasp _, hasp _, ?_⟩
  rw [hasp, eq_div_iff hh'.ne', div_mul_eq_mul_div, div_eq_iff (by norm_num : (5 : α) ≠ 0)]
  constructor
  · intro h
    have h2 : ((9 * height : Int) : α) = ((5 * width : Int) : α) := by
      push_cast; linarith
    exact_mod_cast h2.symm
  · intro h
    have h2 : ((5 * width : Int) : α) = ((9 * height : Int) : α) := by rw [h]
    push_cast at h2
    linarith

/-- C6 (amended), instance: a resize to `800 x 600` at start-up. -/
theorem aspect_is_constant_witness :
    (dispatch (loopInit : LoopState ℚ) (Event.resize 800 600)).viewport = (800, 600) ∧
    (frame (fun a => a) (fun a => a) (loopInit : LoopState ℚ) (Clock.at 1)).2.aspect = 9 / 5 ∧
    (frame (fun a => a) (fun a => a)
        (dispatch (loopInit : LoopState ℚ) (Event.resize 800 600)) (Clock.at 1)).2.aspect = 9 / 5 ∧
    ((frame (fun a => a) (fun a => a)
        (dispatch (loopInit : LoopState ℚ) (Event.resize 800 600)) (Clock.at 1)).2.aspect
        = ((800 : Int) : ℚ) / ((600 : Int) : ℚ) ↔ 5 * (800 : Int) = 9 * 600) :=
  aspect_is_constant (fun a => a) (fun a => a) loopInit (Clock.at 1) 800 600 (by decide)

/-! ## Moon relative to earth -/

/-- C8: in every frame, whatever the state (paused or not) and the clock, the
moon is drawn at the earth's drawn position plus
`(cos moonAngle * 1.5, 0, sin moonAngle * 1.5)`; the drawn moon has `y = 0`
and is at distance `1.5` from the drawn earth, and the drawn earth is at
distance `5` from the sun, which is drawn at the origin. -/
theorem moon_drawn_around_earth (s : LoopState ℝ) (clk : Clock ℝ) :
    (frame Real.cos Real.sin s clk).2.translationMoon
      = (frame Real.cos Real.sin s clk).2.translationEarth.add
          ⟨Real.cos (frame Real.cos Real.sin s clk).2.moonOrbitAngle * (3 / 2), 0,
           Real.sin (frame Real.cos Real.sin s clk).2.moonOrbitAngle * (3 / 2)⟩ ∧
    (frame Real.cos Real.sin s clk).2.translationMoon.y = 0 ∧
    Real.sqrt (Vec3.distSq (frame Real.cos Real.sin s clk).2.translationMoon
        (frame Real.cos Real.sin s clk).2.translationEarth) = 3 / 2 ∧
    (frame Real.cos Real.sin s clk).2.translationSun = ⟨0, 0, 0⟩ ∧
    Real.sqrt (Vec3.distSq (frame Real.cos Real.sin s clk).2.translationEarth
        (frame Real.cos Real.sin s clk).2.translationSun) = 5 := by
  refine ⟨?_, ?_, ?_, ?_, ?_⟩
  · simp only [frame, Vec3.add, moonOrbitRadius, earthOrbitRadius]
    congr 1 <;> ring
  · simp only [frame]
  · simp only [frame, Vec3.distSq, moonOrbitRadius, earthOrbitRadius]
    have h := Real.cos_sq_add_sin_sq (clk.tMoon * s.moonOrbitSpeed)
    have hsq : (Real.cos (clk.tMoon * s.moonOrbitSpeed) * (3 / 2)
          + Real.cos (clk.tEarth * s.earthOrbitSpeed) * 5
          - Real.cos (clk.tEarth * s.earthOrbitSpeed) * 5)
        * (Real.cos (clk.tMoon * s.moonOrbitSpeed) * (3 / 2)
          + Real.cos (clk.tEarth * s.earthOrbitSpeed) * 5
          - Real.cos (clk.tEarth * s.earthOrbitSpeed) * 5)
        + (0 - 0) * (0 - 0)
        + (Real.sin (clk.tMoon * s.moonOrbitSpeed) * (3 / 2)
          + Real.sin (clk.tEarth * s.earthOrbitSpeed) * 5
          - Real.sin (clk.tEarth * s.earthOrbitSpeed) * 5)
        * (Real.sin (clk.tMoon * s.moonOrbitSpeed) * (3 / 2)
          + Real.sin (clk.tEarth * s.earthOrbitSpeed) * 5
          - Real.sin (clk.tEarth * s.earthOrbitSpeed) * 5) = (3 / 2) ^ 2 := by
      linear_combination (9 / 4) * h
    rw [hsq, Real.sqrt_sq (by norm_num)]
  · simp only [frame]
  · simp only [frame, Vec3.distSq, moonOrbitRadius, earthOrbitRadius]
    have h := Real.cos_sq_add_sin_sq (clk.tEarth * s.earthOrbitSpeed)
    have hsq : (Real.cos (clk.tEarth * s.earthOrbitSpeed) * 5 - 0)
        * (Real.cos (clk.tEarth * s.earthOrbitSpeed) * 5 - 0)
        + (0 - 0) * (0 - 0)
        + (Real.sin (clk.tEarth * s.earthOrbitSpeed) * 5 - 0)
        * (Real.sin (clk.tEarth * s.earthOrbitSpeed) * 5 - 0) = 5 ^ 2 := by
      linear_combination 25 * h
    rw [hsq, Real.sqrt_sq (by norm_num)]


/-! ## Earth translation and the in-frame update -/

/-- C5 (the code on the failing input): in the second iteration of a run with
clock readings `1` then `2` (running, `dt = 1`), the orbit angle is updated from
`1/5` to `1/5 + 1/10` and `earthPosX`, `earthPosZ` are recomputed from the
updated angle, yet the earth is drawn at `(cos (1/5) * 5, 0, sin (1/5) * 5)`,
which differs from the position of the updated angle. -/
theorem earth_not_drawn_from_updated_angle :
    (frameAfter Real.cos Real.sin [(Clock.at 1, [])] (Clock.at 2)).paused = false ∧
    (frameAfter Real.cos Real.sin [(Clock.at 1, [])] (Clock.at 2)).deltaTime = 1 ∧
    (frameAfter Real.cos Real.sin [(Clock.at 1, [])] (Clock.at 2)).earthOrbitAngleInit = 1 / 5 ∧
    (frameAfter Real.cos Real.sin [(Clock.at 1, [])] (Clock.at 2)).earthOrbitAngle
      = 1 / 5 + 1 / 10 ∧
    (frameAfter Real.cos Real.sin [(Clock.at 1, [])] (Clock.at 2)).earthPosX
      = Real.cos (1 / 5 + 1 / 10) * 5 ∧
    (frameAfter Real.cos Real.sin [(Clock.at 1, [])] (Clock.at 2)).earthPosZ
      = Real.sin (1 / 5 + 1 / 10) * 5 ∧
    (frameAfter Real.cos Real.sin [(Clock.at 1, [])] (Clock.at 2)).translationEarth
      = ⟨Real.cos (1 / 5) * 5, 0, Real.sin (1 / 5) * 5⟩ ∧
    (frameAfter Real.cos Real.sin [(Clock.at 1, [])] (Clock.at 2)).translationEarth
      ≠ ⟨Real.cos (1 / 5 + 1 / 10) * 5, 0, Real.sin (1 / 5 + 1 / 10) * 5⟩ := by
  have hf : (frameAfter Real.cos Real.sin [(Clock.at 1, [])] (Clock.at 2)).translationEarth
      = ⟨Real.cos (1 / 5) * 5, 0, Real.sin (1 / 5) * 5⟩ := by
    simp only [frameAfter, mainLoop, frame, pollEvents, loopInit, pausedInit, Clock.at,
      earthOrbitRadius, List.foldl_nil]
    norm_num
  refine ⟨?_, ?_, ?_, ?_, ?_, ?_, hf, ?_⟩
  · simp [frameAfter, mainLoop, frame, pollEvents, loopInit, pausedInit]
  · simp only [frameAfter, mainLoop, frame, pollEvents, loopInit, pausedInit, Clock.at,
      List.foldl_nil]
    norm_num
  · simp only [frameAfter, mainLoop, frame, pollEvents, loopInit, pausedInit, Clock.at,
      List.foldl_nil]
    norm_num
  · simp only [frameAfter, mainLoop, frame, pollEvents, loopInit, pausedInit, Clock.at,
      List.foldl_nil]
    norm_num
  · simp only [frameAfter, mainLoop, frame, pollEvents, loopInit, pausedInit, Clock.at,
      earthOrbitRadius, List.foldl_nil]
    norm_num
  · simp only [frameAfter, mainLoop, frame, pollEvents, loopInit, pausedInit, Clock.at,
      earthOrbitRadius, List.foldl_nil]
    norm_num
  · rw [hf]
    intro h
    have hx : Real.cos (1 / 5) * 5 = Real.cos (1 / 5 + 1 / 10) * 5 := congrArg Vec3.x h
    have hlt : Real.cos (1 / 5 + 1 / 10) < Real.cos (1 / 5) :=
      Real.cos_lt_cos_of_nonneg_of_le_pi (by norm_num)
        (by linarith [Real.pi_gt_three]) (by norm_num)
    linarith

/-! ## Orbit angle across frames -/

/-- C4 (the code on the failing input): in a run of three unpaused iterations
with clock readings `1`, `2`, `4` (so `dt` is `1`, `1`, `2`), the earth's orbit
angle is `1/10`, `1/5`, `2/5` when it is declared and `1/5`, `3/10`, `3/5`
after the update, and the moon's is `3/10`, `3/5`, `6/5`.  The earth angle after
the update of the third iteration, `3/5`, is not `3/10 + 1/10 * 2`, whereas the
moon's `6/5` is `3/5 + 3/10 * 2`. -/
theorem updated_earth_angle_is_not_previous_plus_speed_dt :
    (frames Real.cos Real.sin [(Clock.at 1, []), (Clock.at 2, []), (Clock.at 4, [])]).map
        (fun f => (f.paused, f.deltaTime, f.earthOrbitAngleInit, f.earthOrbitAngle,
          f.moonOrbitAngle))
      = [(false, 1, 1 / 10, 1 / 5, 3 / 10), (false, 1, 1 / 5, 3 / 10, 3 / 5),
         (false, 2, 2 / 5, 3 / 5, 6 / 5)] ∧
    (3 / 5 : ℝ) ≠ 3 / 10 + 1 / 10 * 2 ∧
    (6 / 5 : ℝ) = 3 / 5 + 3 / 10 * 2 := by
  refine ⟨?_, ?_, ?_⟩
  · simp only [frames, mainLoop, frame, pollEvents, loopInit, pausedInit, Clock.at,
      List.foldl_nil, List.map_cons, List.map_nil]
    norm_num
  · norm_num
  · norm_num

/-! ## Pause and resume -/

/-- C2 (the code on the failing input): `P` is pressed during the first
iteration (clock `10`); the next two iterations (clock `11` and `12`) run with
the pause flag set.  The earth and moon orbit angles are `1` and `3` in the
first iteration, `11/10` and `33/10` in the first paused iteration, and `0` and
`0` in the second paused iteration: in both paused iterations they differ from
the preceding iteration. -/
theorem paused_frames_change_orbit_angles :
    (frames Real.cos Real.sin [(Clock.at 10, [pressP]), (Clock.at 11, []), (Clock.at 12, [])]).map
        (fun f => (f.paused, f.earthOrbitAngleInit, f.earthOrbitAngle, f.moonOrbitAngle))
      = [(false, 1, 2, 3), (true, 11 / 10, 6 / 5, 33 / 10), (true, 0, 0, 0)] := by
  simp only [frames, mainLoop, frame, pollEvents, dispatch, keyCallback, pressP, loopInit,
    pausedInit, Clock.at, List.foldl_nil, List.foldl_cons, List.map_cons, List.map_nil]
  norm_num

/-- C3 (the code on the failing input): the run is paused during the iteration
at clock `10`, stays paused for the iterations at `11` and `12`, and is resumed
during the iteration at `12`.  The earth angle is `1` when `P` is pressed, `0`
in the first running iteration after resume (clock `13`) and `7/5` in the next
(clock `14`): the total elapsed time times `1/10`, paused time included.  With
a pause two iterations longer the first two running iterations after resume
give `0` and `8/5`. -/
theorem resume_jumps_to_absolute_time_angle :
    (frames Real.cos Real.sin
        [(Clock.at 10, [pressP]), (Clock.at 11, []), (Clock.at 12, [pressP]),
         (Clock.at 13, []), (Clock.at 14, [])]).map
        (fun f => (f.paused, f.earthOrbitAngleInit, f.moonOrbitAngle))
      = [(false, 1, 3), (true, 11 / 10, 33 / 10), (true, 0, 0), (false, 0, 0),
         (false, 7 / 5, 21 / 5)] ∧
    (frames Real.cos Real.sin
        [(Clock.at 10, [pressP]), (Clock.at 11, []), (Clock.at 12, []), (Clock.at 13, []),
         (Clock.at 14, [pressP]), (Clock.at 15, []), (Clock.at 16, [])]).map
        (fun f => (f.paused, f.earthOrbitAngleInit, f.moonOrbitAngle))
      = [(false, 1, 3), (true, 11 / 10, 33 / 10), (true, 0, 0), (true, 0, 0), (true, 0, 0),
         (false, 0, 0), (false, 8 / 5, 24 / 5)] := by
  constructor
  · simp only [frames, mainLoop, frame, pollEvents, dispatch, keyCallback, pressP, loopInit,
      pausedInit, Clock.at, List.foldl_nil, List.foldl_cons, List.map_cons, List.map_nil]
    norm_num
  · simp only [frames, mainLoop, frame, pollEvents, dispatch, keyCallback, pressP, loopInit,
      pausedInit, Clock.at, List.foldl_nil, List.foldl_cons, List.map_cons, List.map_nil]
    norm_num


/-! ## Starfield -/

theorem starCoord_bounds {α : Type} [LinearOrderedField α] (RAND_MAX r : Nat)
    (hpos : 0 < RAND_MAX) (hr : r ≤ RAND_MAX) :
    (-3500 : α) ≤ starCoord RAND_MAX r ∧ (starCoord RAND_MAX r : α) ≤ 2500 := by
  have hM : (0 : α) < (RAND_MAX : α) := by exact_mod_cast hpos
  have h0 : (0 : α) ≤ (r : α) / (RAND_MAX : α) := by positivity
  have h1 : (r : α) / (RAND_MAX : α) ≤ 1 := by
    rw [div_le_one hM]; exact_mod_cast hr
  unfold starCoord
  constructor <;> linarith

theorem starBody_eq {α : Type} [LinearOrderedField α] (RAND_MAX : Nat) (rnd : Nat → Nat)
    (s : StarState α) (i : Nat) (h : i * 6 + 5 < s.vertices.length) :
    starBody RAND_MAX rnd s i = some
      { vertices := (((((s.vertices.set (i * 6) (starCoord RAND_MAX (rnd s.calls))).set
            (i * 6 + 1) (starCoord RAND_MAX (rnd (s.calls + 1)))).set
            (i * 6 + 2) (starCoord RAND_MAX (rnd (s.calls + 2)))).set
            (i * 6 + 3) 255).set (i * 6 + 4) 255).set (i * 6 + 5) 255,
        written := s.written ++ [i * 6, i * 6 + 1, i * 6 + 2, i * 6 + 3, i * 6 + 4, i * 6 + 5],
        calls := s.calls + 3 } := by
  have h0 : i * 6 < s.vertices.length := by omega
  have h1 : i * 6 + 1 < s.vertices.length := by omega
  have h2 : i * 6 + 2 < s.vertices.length := by omega
  have h3 : i * 6 + 3 < s.vertices.length := by omega
  have h4 : i * 6 + 4 < s.vertices.length := by omega
  simp [starBody, randCoord, store, List.length_set, h, h0, h1, h2, h3, h4]

theorem set6_getElem? {α : Type} (l : List α) (b : Nat) (v0 v1 v2 v3 v4 v5 : α)
    (h : b + 5 < l.length) :
    ((((((l.set b v0).set (b + 1) v1).set (b + 2) v2).set (b + 3) v3).set (b + 4) v4).set
        (b + 5) v5)[b]? = some v0 ∧
    ((((((l.set b v0).set (b + 1) v1).set (b + 2) v2).set (b + 3) v3).set (b + 4) v4).set
        (b + 5) v5)[b + 1]? = some v1 ∧
    ((((((l.set b v0).set (b + 1) v1).set (b + 2) v2).set (b + 3) v3).set (b + 4) v4).set
        (b + 5) v5)[b + 2]? = some v2 ∧
    ((((((l.set b v0).set (b + 1) v1).set (b + 2) v2).set (b + 3) v3).set (b + 4) v4).set
        (b + 5) v5)[b + 3]? = some v3 ∧
    ((((((l.set b v0).set (b + 1) v1).set (b + 2) v2).set (b + 3) v3).set (b + 4) v4).set
        (b + 5) v5)[b + 4]? = some v4 ∧
    ((((((l.set b v0).set (b + 1) v1).set (b + 2) v2).set (b + 3) v3).set (b + 4) v4).set
        (b + 5) v5)[b + 5]? = some v5 ∧
    ∀ k, k < b →
      ((((((l.set b v0).set (b + 1) v1).set (b + 2) v2).set (b + 3) v3).set (b + 4) v4).set
        (b + 5) v5)[k]? = l[k]? := by
  have h0 : b < l.length := by omega
  have h1 : b + 1 < l.length := by omega
  have h2 : b + 2 < l.length := by omega
  have h3 : b + 3 < l.length := by omega
  have h4 : b + 4 < l.length := by omega
  refine ⟨?_, ?_, ?_, ?_, ?_, ?_, ?_⟩
  · simp [List.getElem?_set, h0]
  · simp [List.getElem?_set, h1]
  · simp [List.getElem?_set, h2]
  · simp [List.getElem?_set, h3]
  · simp [List.getElem?_set, h4]
  · simp [List.getElem?_set, h]
  · intro k hk
    have e0 : b ≠ k := by omega
    have e1 : b + 1 ≠ k := by omega
    have e2 : b + 2 ≠ k := by omega
    have e3 : b + 3 ≠ k := by omega
    have e4 : b + 4 ≠ k := by omega
    have e5 : b + 5 ≠ k := by omega
    simp [List.getElem?_set, e0, e1, e2, e3, e4, e5]


theorem starLoop_succ {α : Type} [LinearOrderedField α] (RAND_MAX : Nat) (rnd : Nat → Nat)
    (n : Nat) (s : StarState α) :
    starLoop RAND_MAX rnd (n + 1) s
      = (starLoop RAND_MAX rnd n s).bind fun t => starBody RAND_MAX rnd t n := by
  simp only [starLoop, List.range_succ, List.foldlM_append, List.foldlM_cons, List.foldlM_nil]
  cases h : List.foldlM (starBody RAND_MAX rnd) s (List.range n) with
  | none => rfl
  | some t =>
    simp only [Option.bind_eq_bind, Option.some_bind]
    cases starBody RAND_MAX rnd t n <;> rfl

theorem starLoop_invariant {α : Type} [LinearOrderedField α] (RAND_MAX : Nat)
    (rnd : Nat → Nat) (n : Nat) (hn : n ≤ numStars) :
    ∃ s : StarState α, starLoop RAND_MAX rnd n starInit = some s ∧
      s.vertices.length = numStars * 6 ∧
      s.written = List.range (n * 6) ∧
      s.calls = n * 3 ∧
      ∀ j, j < n →
        s.vertices[j * 6]? = some (starCoord RAND_MAX (rnd (j * 3))) ∧
        s.vertices[j * 6 + 1]? = some (starCoord RAND_MAX (rnd (j * 3 + 1))) ∧
        s.vertices[j * 6 + 2]? = some (starCoord RAND_MAX (rnd (j * 3 + 2))) ∧
        s.vertices[j * 6 + 3]? = some 255 ∧
        s.vertices[j * 6 + 4]? = some 255 ∧
        s.vertices[j * 6 + 5]? = some 255 := by
  induction n with
  | zero =>
    refine ⟨starInit, ?_, ?_, ?_, ?_, ?_⟩
    · simp [starLoop]
    · simp [starInit]
    · simp [starInit]
    · simp [starInit]
    · intro j hj; omega
  | succ n ih =>
    obtain ⟨s, hs, hlen, hw, hc, hv⟩ := ih (by omega)
    have hb : n * 6 + 5 < s.vertices.length := by rw [hlen]; omega
    obtain ⟨g0, g1, g2, g3, g4, g5, gk⟩ := set6_getElem? s.vertices (n * 6)
      (starCoord RAND_MAX (rnd s.calls)) (starCoord RAND_MAX (rnd (s.calls + 1)))
      (starCoord RAND_MAX (rnd (s.calls + 2))) 255 255 255 hb
    have hstep := starBody_eq RAND_MAX rnd s n hb
    rw [← Option.some_bind s (fun t => starBody RAND_MAX rnd t n), ← hs, ← starLoop_succ] at hstep
    refine ⟨_, hstep, ?_, ?_, ?_, ?_⟩
    · simp [List.length_set, hlen]
    · simp only [hw]
      rw [show (n + 1) * 6 = n * 6 + 1 + 1 + 1 + 1 + 1 + 1 by ring]
      simp [List.range_succ]
    · simp only [hc]; ring
    · intro j hj
      rcases Nat.lt_succ_iff_lt_or_eq.mp hj with hlt | rfl
      · obtain ⟨v0, v1, v2, v3, v4, v5⟩ := hv j hlt
        refine ⟨?_, ?_, ?_, ?_, ?_, ?_⟩
        · rw [gk (j * 6) (by omega)]; exact v0
        · rw [gk (j * 6 + 1) (by omega)]; exact v1
        · rw [gk (j * 6 + 2) (by omega)]; exact v2
        · rw [gk (j * 6 + 3) (by omega)]; exact v3
        · rw [gk (j * 6 + 4) (by omega)]; exact v4
        · rw [gk (j * 6 + 5) (by omega)]; exact v5
      · rw [hc] at g0 g1 g2 g3 g4 g5
        simp only [hc]
        exact ⟨g0, g1, g2, g3, g4, g5⟩

/-- C9: for every outcome of the `rand()` calls within `[0, RAND_MAX]`, the
generation loop completes without storing outside `vertices`; the indices
stored to are `0, 1, ..., 20999` in this order, so each is below
`numStars * 6 = 21000` and each slot is stored to exactly once; and every star
`i < 3500` has the coordinates computed from the `rand()` calls `3i`, `3i+1`,
`3i+2` at `vertices[6i]`, `vertices[6i+1]`, `vertices[6i+2]`, each within
`[-3500, 2500]`, and `255, 255, 255` at `vertices[6i+3 .. 6i+5]`. -/
theorem starfield_generation {α : Type} [LinearOrderedField α] (RAND_MAX : Nat)
    (rnd : Nat → Nat) (hpos : 0 < RAND_MAX) (hrand : ∀ k, rnd k ≤ RAND_MAX) :
    ∃ s : StarState α, generateStars RAND_MAX rnd = some s ∧
      numStars * 6 = 21000 ∧
      s.vertices.length = 21000 ∧
      s.written = List.range 21000 ∧
      (∀ k, k ∈ s.written → k < 21000) ∧
      (∀ k, k < 21000 → s.written.count k = 1) ∧
      ∀ i, i < 3500 →
        s.vertices[6 * i]? = some (starCoord RAND_MAX (rnd (3 * i))) ∧
        s.vertices[6 * i + 1]? = some (starCoord RAND_MAX (rnd (3 * i + 1))) ∧
        s.vertices[6 * i + 2]? = some (starCoord RAND_MAX (rnd (3 * i + 2))) ∧
        ((-3500 : α) ≤ starCoord RAND_MAX (rnd (3 * i)) ∧
          (starCoord RAND_MAX (rnd (3 * i)) : α) ≤ 2500) ∧
        ((-3500 : α) ≤ starCoord RAND_MAX (rnd (3 * i + 1)) ∧
          (starCoord RAND_MAX (rnd (3 * i + 1)) : α) ≤ 2500) ∧
        ((-3500 : α) ≤ starCoord RAND_MAX (rnd (3 * i + 2)) ∧
          (starCoord RAND_MAX (rnd (3 * i + 2)) : α) ≤ 2500) ∧
        s.vertices[6 * i + 3]? = some 255 ∧
        s.vertices[6 * i + 4]? = some 255 ∧
        s.vertices[6 * i + 5]? = some 255 := by
  obtain ⟨s, hs, hlen, hw, _, hv⟩ :=
    @starLoop_invariant α _ RAND_MAX rnd numStars (le_refl _)
  have hN : numStars * 6 = 21000 := by decide
  rw [hN] at hlen hw
  refine ⟨s, hs, hN, hlen, hw, ?_, ?_, ?_⟩
  · intro k hk
    rw [hw] at hk
    exact List.mem_range.mp hk
  · intro k hk
    rw [hw]
    exact List.count_eq_one_of_mem (List.nodup_range _) (List.mem_range.mpr hk)
  · intro i hi
    obtain ⟨v0, v1, v2, v3, v4, v5⟩ := hv i (by simpa [numStars] using hi)
    rw [Nat.mul_comm i 6, Nat.mul_comm i 3] at v0 v1 v2
    rw [Nat.mul_comm i 6] at v3 v4 v5
    exact ⟨v0, v1, v2, starCoord_bounds _ _ hpos (hrand _), starCoord_bounds _ _ hpos (hrand _),
      starCoord_bounds _ _ hpos (hrand _), v3, v4, v5⟩

/-- C9, instance: `RAND_MAX = 32767` and a `rand()` whose `k`-th outcome is
`k % 32768`. -/
theorem starfield_generation_witness :
    (0 < 32767 ∧ ∀ k, (fun k => k % 32768) k ≤ 32767) ∧
    ∃ s : StarState ℚ, generateStars 32767 (fun k => k % 32768) = some s ∧
      numStars * 6 = 21000 ∧
      s.vertices.length = 21000 ∧
      s.written = List.range 21000 ∧
      (∀ k, k ∈ s.written → k < 21000) ∧
      (∀ k, k < 21000 → s.written.count k = 1) ∧
      ∀ i, i < 3500 →
        s.vertices[6 * i]? = some (starCoord 32767 ((fun k => k % 32768) (3 * i))) ∧
        s.vertices[6 * i + 1]? = some (starCoord 32767 ((fun k => k % 32768) (3 * i + 1))) ∧
        s.vertices[6 * i + 2]? = some (starCoord 32767 ((fun k => k % 32768) (3 * i + 2))) ∧
        ((-3500 : ℚ) ≤ starCoord 32767 ((fun k => k % 32768) (3 * i)) ∧
          (starCoord 32767 ((fun k => k % 32768) (3 * i)) : ℚ) ≤ 2500) ∧
        ((-3500 : ℚ) ≤ starCoord 32767 ((fun k => k % 32768) (3 * i + 1)) ∧
          (starCoord 32767 ((fun k => k % 32768) (3 * i + 1)) : ℚ) ≤ 2500) ∧
        ((-3500 : ℚ) ≤ starCoord 32767 ((fun k => k % 32768) (3 * i + 2)) ∧
          (starCoord 32767 ((fun k => k % 32768) (3 * i + 2)) : ℚ) ≤ 2500) ∧
        s.vertices[6 * i + 3]? = some 255 ∧
        s.vertices[6 * i + 4]? = some 255 ∧
        s.vertices[6 * i + 5]? = some 255 :=
  ⟨⟨by decide, fun k => by show k % 32768 ≤ 32767; omega⟩,
    starfield_generation 32767 (fun k => k % 32768) (by decide)
      (fun k => by show k % 32768 ≤ 32767; omega)⟩

end PlanetSystem
